import Mathlib

/-!
Verification of the analytics computations of MS-REPORT-PY
(src/routers/reports.py) against its natural-language specification.

All Python floats are modelled as rationals (ℚ); `round(x, n)` is modelled
with round-half-to-even (Python's rounding mode); loosely-typed collaborator
records are modelled as structures with `Option` fields (`none` = key absent
or value null/non-numeric, matching `_safe_float`'s fallback behaviour).
-/

namespace MSReport

/-- Python's built-in `round` to an integer: round half to even. -/
def pyRound (q : ℚ) : ℤ :=
  let f : ℤ := ⌊q⌋
  let r : ℚ := q - (f : ℚ)
  if r < 1 / 2 then f
  else if 1 / 2 < r then f + 1
  else if f % 2 = 0 then f else f + 1

/-- Python's `round(x, 2)`, as used throughout reports.py. -/
def round2 (q : ℚ) : ℚ := (pyRound (q * 100) : ℚ) / 100

theorem pyRound_intCast (z : ℤ) : pyRound (z : ℚ) = z := by
  simp [pyRound]

/-- Python `a or b` on already-coerced floats: `b` when `a` is zero (falsy). -/
def pyOr (a b : ℚ) : ℚ := if a = 0 then b else a

/-- `_safe_float(value, default)` (reports.py lines 118–125): a field value is
`Option ℚ`, `none` standing for absent / `None` / non-convertible. -/
def safeFloat (v : Option ℚ) (d : ℚ) : ℚ := v.getD d

/-! ### Seller efficiency score (get_sellers_performance, lines 219–237) -/

/-- The `efficiency` computation of get_sellers_performance (lines 220–227):
`optimal_load = 40`; 0 when no shopkeepers, linear ramp up to the optimal
load, overload penalty above it. -/
def efficiency (count : ℕ) : ℚ :=
  if count = 0 then 0
  else if count ≤ 40 then ((count : ℚ) / 40) * 100
  else max 0 (100 - (((count : ℚ) - 40) / 40) * 50)

/-- The emitted `efficiency_score` field (line 236): `round(efficiency, 2)`. -/
def efficiencyScore (count : ℕ) : ℚ := round2 (efficiency count)

/-- The emitted `is_over_limit` field (line 235). -/
def isOverLimit (count : ℕ) : Bool := count > 80

/-! ### Coverage percentage (get_coverage_report, lines 149–172) -/

/-- The `coverage` computation (lines 162–163): `max_expected = sellers * 80`,
zero when the denominator is zero. -/
def coverage (sellers shopkeepers : ℕ) : ℚ :=
  if sellers * 80 > 0 then ((shopkeepers : ℚ) / ((sellers : ℚ) * 80)) * 100 else 0

/-- The emitted `coverage_percentage` field (line 171). -/
def coveragePercentage (sellers shopkeepers : ℕ) : ℚ := round2 (coverage sellers shopkeepers)

/-! ### Active-assignment counting (get_system_metrics line 465,
get_sales_comparison line 577) -/

/-- An assignment row; `is_active` is `none` when the key is absent. -/
structure Assignment where
  seller_id : Option ℤ
  is_active : Option Bool
deriving DecidableEq

/-- `len([a for a in assignments if a.get("is_active", True)])`: an absent
`is_active` defaults to `True`. -/
def activeAssignmentCount (assignments : List Assignment) : ℕ :=
  (assignments.filter fun a => a.is_active.getD true).length

/-- The counting rule as the claim words it: a row counts only when the
`is_active` field is present and true. -/
def claimActiveAssignmentCount (assignments : List Assignment) : ℕ :=
  (assignments.filter fun a => a.is_active = some true).length

/-! ### Priority classification (get_market_opportunities, lines 1016–1020) -/

/-- Priority of a missing-product opportunity: starts at "low", upgraded to
"high" or "medium" by the two guarded branches. `missing` is an `ℤ` because
the Python `missing_count` subtraction is over unbounded ints. -/
def priorityOf (popularity : ℚ) (missing : ℤ) (effectiveMinMissing : ℤ) : String :=
  if popularity ≥ 8 / 10 ∧ missing ≥ effectiveMinMissing * 2 then "high"
  else if popularity ≥ 65 / 100 then "medium"
  else "low"

/-! ## C1, C4, C6, C9 theorems -/

/-- C1 (corrected at count = 80): the claim's own formula
`max(0, 100 − ((80−40)/40)·50)` yields 50, not the 0.0 the claim asserts. -/
theorem cex_C1 : efficiencyScore 80 = 50 ∧ efficiencyScore 80 ≠ 0 := by
  constructor <;> norm_num [efficiencyScore, efficiency, round2, pyRound]

/-- C1 (amended): the seller efficiency score is 0 at count 0,
`(count/40)·100` for 0 < count ≤ 40, and `max(0, 100 − ((count−40)/40)·50)`
above 40; count 40 ↦ 100, count 20 ↦ 50, count 80 ↦ 50, count 0 ↦ 0; the
score is non-increasing beyond 40; `is_over_limit` holds exactly when
count > 80. -/
theorem thm_C1 (count : ℕ) :
    (count = 0 → efficiency count = 0) ∧
    (0 < count → count ≤ 40 → efficiency count = ((count : ℚ) / 40) * 100) ∧
    (40 < count → efficiency count = max 0 (100 - (((count : ℚ) - 40) / 40) * 50)) ∧
    efficiencyScore 40 = 100 ∧ efficiencyScore 20 = 50 ∧
    efficiencyScore 80 = 50 ∧ efficiencyScore 0 = 0 ∧
    (∀ c2 : ℕ, 40 < count → count ≤ c2 → efficiency c2 ≤ efficiency count) ∧
    (isOverLimit count = true ↔ 80 < count) := by
  refine ⟨?_, ?_, ?_,
    by norm_num [efficiencyScore, efficiency, round2, pyRound],
    by norm_num [efficiencyScore, efficiency, round2, pyRound],
    by norm_num [efficiencyScore, efficiency, round2, pyRound],
    by norm_num [efficiencyScore, efficiency, round2, pyRound], ?_, ?_⟩
  · intro h; simp [efficiency, h]
  · intro h1 h2
    rw [efficiency, if_neg (by omega), if_pos h2]
  · intro h
    rw [efficiency, if_neg (by omega), if_neg (by omega)]
  · intro c2 h1 h2
    have hc1 : ¬ count = 0 := by omega
    have hc1' : ¬ count ≤ 40 := by omega
    have hc2 : ¬ c2 = 0 := by omega
    have hc2' : ¬ c2 ≤ 40 := by omega
    simp only [efficiency, if_neg hc1, if_neg hc1', if_neg hc2, if_neg hc2']
    have hle : (count : ℚ) ≤ (c2 : ℚ) := by exact_mod_cast h2
    apply max_le_max (le_refl (0 : ℚ))
    have hd : ((count : ℚ) - 40) / 40 * 50 ≤ ((c2 : ℚ) - 40) / 40 * 50 := by linarith
    linarith
  · simp [isOverLimit]

theorem thm_C1_witness :
    40 < 41 ∧ 41 ≤ 50 ∧ efficiency 50 ≤ efficiency 41 :=
  ⟨by decide, by decide, ((thm_C1 41).2.2.2.2.2.2.2.1) 50 (by decide) (by decide)⟩

/-- C4: priority is "high" exactly when popularity ≥ 0.8 and
missing ≥ 2·min_missing; otherwise "medium" exactly when popularity ≥ 0.65;
otherwise "low"; popularity 0.8 with missing = 2·min yields "high" and
popularity 0.79999 never yields "high". -/
theorem thm_C4 (p : ℚ) (missing m : ℤ) :
    (priorityOf p missing m = "high" ↔ (p ≥ 8 / 10 ∧ missing ≥ 2 * m)) ∧
    (priorityOf p missing m = "medium" ↔
      (¬(p ≥ 8 / 10 ∧ missing ≥ 2 * m) ∧ p ≥ 65 / 100)) ∧
    (priorityOf p missing m = "low" ↔
      (¬(p ≥ 8 / 10 ∧ missing ≥ 2 * m) ∧ ¬ p ≥ 65 / 100)) ∧
    (priorityOf (8 / 10) (2 * m) m = "high") ∧
    (priorityOf (79999 / 100000) missing m ≠ "high") := by
  refine ⟨?_, ?_, ?_, ?_, ?_⟩
  · unfold priorityOf
    split_ifs with h1 h2
    · exact iff_of_true rfl ⟨h1.1, by have := h1.2; omega⟩
    · exact iff_of_false (by decide) fun h => h1 ⟨h.1, by have := h.2; omega⟩
    · exact iff_of_false (by decide) fun h => h1 ⟨h.1, by have := h.2; omega⟩
  · unfold priorityOf
    split_ifs with h1 h2
    · exact iff_of_false (by decide) fun h => h.1 ⟨h1.1, by have := h1.2; omega⟩
    · exact iff_of_true rfl ⟨fun h => h1 ⟨h.1, by have := h.2; omega⟩, h2⟩
    · exact iff_of_false (by decide) fun h => h2 h.2
  · unfold priorityOf
    split_ifs with h1 h2
    · exact iff_of_false (by decide) fun h => h.1 ⟨h1.1, by have := h1.2; omega⟩
    · exact iff_of_false (by decide) fun h => h.2 h2
    · exact iff_of_true rfl ⟨fun h => h1 ⟨h.1, by have := h.2; omega⟩, h2⟩
  · unfold priorityOf
    rw [if_pos ⟨le_refl _, by omega⟩]
  · unfold priorityOf
    split_ifs with h1 h2
    · exact absurd h1.1 (by norm_num)
    · decide
    · decide

/-- C6: zone coverage is `shopkeepers/(sellers·80)·100` (rounded to 2
decimals), 0 when there are no sellers, has no upper clamp (1 seller with
100 shopkeepers gives 125 > 100), and sellers=3, shopkeepers=60 gives 25. -/
theorem thm_C6 (sellers shopkeepers : ℕ) :
    (0 < sellers →
      coveragePercentage sellers shopkeepers =
        round2 (((shopkeepers : ℚ) / ((sellers : ℚ) * 80)) * 100)) ∧
    coverage 0 shopkeepers = 0 ∧
    coveragePercentage 3 60 = 25 ∧
    coveragePercentage 1 100 = 125 ∧ (100 : ℚ) < coveragePercentage 1 100 := by
  refine ⟨?_, by simp [coverage],
    by norm_num [coveragePercentage, coverage, round2, pyRound],
    by norm_num [coveragePercentage, coverage, round2, pyRound],
    by norm_num [coveragePercentage, coverage, round2, pyRound]⟩
  intro h
  have : sellers * 80 > 0 := by omega
  simp [coveragePercentage, coverage, this]

theorem thm_C6_witness :
    0 < 2 ∧ coveragePercentage 2 10 = round2 (((10 : ℚ) / ((2 : ℚ) * 80)) * 100) :=
  ⟨by decide, (thm_C6 2 10).1 (by decide)⟩

/-- C9 (corrected): an assignment row lacking the `is_active` field IS
counted (`a.get("is_active", True)` defaults to true), contradicting the
claim that it is not. -/
theorem cex_C9 :
    activeAssignmentCount [⟨some 1, none⟩] = 1 ∧
    claimActiveAssignmentCount [⟨some 1, none⟩] = 0 := by
  constructor <;> decide

/-- C9 (amended): in the system-metrics and sales-comparison reports an
assignment row is counted as active exactly when its `is_active` field is
true or absent (absent defaults to true); a row with `is_active = false` is
not counted. -/
theorem thm_C9 (assignments : List Assignment) :
    activeAssignmentCount assignments =
      (assignments.filter fun a => a.is_active ≠ some false).length := by
  unfold activeAssignmentCount
  congr 1
  apply List.filter_congr
  intro a _
  cases h : a.is_active with
  | none => simp [h]
  | some b => cases b <;> simp [h]

/-! ### Visit compliance (get_visits_compliance, lines 1299–1357) -/

/-- A visit record as consumed by the compliance loop; only `seller_id` and
`status` are read. -/
structure Visit where
  seller_id : Option ℤ := none
  status : Option String := none
deriving DecidableEq

/-- `[v for v in all_visits if v.get("seller_id") == seller["id"]]` (line 1301). -/
def sellerVisits (visits : List Visit) (sid : ℤ) : List Visit :=
  visits.filter fun v => v.seller_id = some sid

/-- `completed` count (line 1304). -/
def completedCount (visits : List Visit) (sid : ℤ) : ℕ :=
  ((sellerVisits visits sid).filter fun v => v.status = some "completed").length

/-- `pending` count (line 1305). -/
def pendingCount (visits : List Visit) (sid : ℤ) : ℕ :=
  ((sellerVisits visits sid).filter fun v => v.status = some "pending").length

/-- `cancelled` count (line 1306). -/
def cancelledCount (visits : List Visit) (sid : ℤ) : ℕ :=
  ((sellerVisits visits sid).filter fun v => v.status = some "cancelled").length

/-- `compliance_percentage` before rounding (lines 1312–1315). -/
def compliancePercentage (completed pending : ℕ) : ℚ :=
  if completed + pending > 0
  then ((completed : ℚ) / ((completed : ℚ) + (pending : ℚ))) * 100
  else 0

/-- The per-seller record appended to `sellers_compliance` (lines 1323–1337;
the zone/name/period fields carry no computation and are omitted). -/
structure SellerComplianceItem where
  seller_id : ℤ
  total_visits : ℕ
  completed_visits : ℕ
  pending_visits : ℕ
  cancelled_visits : ℕ
  compliance_percentage : ℚ
deriving DecidableEq

/-- One iteration of the per-seller loop: `total_programmed = completed +
pending`, percentage rounded to 2 decimals. -/
def complianceItemFor (visits : List Visit) (sid : ℤ) : SellerComplianceItem where
  seller_id := sid
  total_visits := completedCount visits sid + pendingCount visits sid
  completed_visits := completedCount visits sid
  pending_visits := pendingCount visits sid
  cancelled_visits := cancelledCount visits sid
  compliance_percentage :=
    round2 (compliancePercentage (completedCount visits sid) (pendingCount visits sid))

/-- The whole `sellers_compliance` list, before the optional sort (the sort
only permutes the records). -/
def sellersCompliance (sellerIds : List ℤ) (visits : List Visit) : List SellerComplianceItem :=
  sellerIds.map (complianceItemFor visits)

/-- `average_compliance` (lines 1344–1345, 1357): unrounded percentages are
accumulated only for sellers with `total_programmed > 0`, then averaged
(0 when the accumulator list is empty). -/
def averageCompliance (sellerIds : List ℤ) (visits : List Visit) : ℚ :=
  let ps := (sellerIds.filter fun sid =>
      0 < completedCount visits sid + pendingCount visits sid).map fun sid =>
      compliancePercentage (completedCount visits sid) (pendingCount visits sid)
  if ps.length > 0 then ps.sum / (ps.length : ℚ) else 0

/-- Concrete compliance scenario for C5: one seller with 7 completed,
2 pending and 5 cancelled visits. -/
def exampleVisits : List Visit :=
  List.replicate 7 ⟨some 1, some "completed"⟩ ++
    List.replicate 2 ⟨some 1, some "pending"⟩ ++
    List.replicate 5 ⟨some 1, some "cancelled"⟩

/-! ### Inventory stock coalescing (get_market_opportunities, lines 957–960
and 1064–1067) -/

/-- A loosely-typed inventory record. `stock` is doubly optional: the outer
`none` means the `"stock"` key is absent (so `item.get` falls back to
`current_stock`), the inner `none` a present but null/non-numeric value. -/
structure InvItem where
  product_id : Option ℕ := none
  item_id : Option ℕ := none
  product_name : Option String := none
  category : Option String := none
  product_category : Option String := none
  price : Option ℚ := none
  unit_price : Option ℚ := none
  stock : Option (Option ℚ) := none
  current_stock : Option ℚ := none
  min_stock : Option ℚ := none
  max_stock : Option ℚ := none
deriving DecidableEq

/-- `stock = _safe_float(item.get("stock", item.get("current_stock")))`. -/
def itemStock (it : InvItem) : ℚ :=
  safeFloat (match it.stock with | some v => v | none => it.current_stock) 0

/-- `min_stock = _safe_float(item.get("min_stock"), default=0.0)`. -/
def itemMinStock (it : InvItem) : ℚ := safeFloat it.min_stock 0

/-- `max_stock = _safe_float(item.get("max_stock"), default=min_stock * 2 if
min_stock else stock + 10)`: the Python condition is truthiness of
`min_stock`, i.e. `min_stock ≠ 0`. -/
def itemMaxStock (it : InvItem) : ℚ :=
  safeFloat it.max_stock
    (if itemMinStock it ≠ 0 then itemMinStock it * 2 else itemStock it + 10)

/-- `units_needed = max(0.0, max_stock - stock)`. -/
def itemUnitsNeeded (it : InvItem) : ℚ := max 0 (itemMaxStock it - itemStock it)

/-- The default rule as the claim words it: `min_stock * 2` only when
`min_stock > 0` (instead of the code's `min_stock ≠ 0`). -/
def claimItemMaxStock (it : InvItem) : ℚ :=
  safeFloat it.max_stock
    (if itemMinStock it > 0 then itemMinStock it * 2 else itemStock it + 10)

/-- units_needed under the claim's wording of the default. -/
def claimItemUnitsNeeded (it : InvItem) : ℚ := max 0 (claimItemMaxStock it - itemStock it)

/-! ### Demand forecast (get_market_opportunities, lines 1153–1175) -/

/-- `avg_demand = sum(demands) / len(demands) if demands else 0` where
`demands` is the list of per-bucket `total_demand` counts. -/
def avgDemand (demands : List ℕ) : ℚ :=
  if demands.length > 0
  then ((demands.map fun d => (d : ℚ)).sum) / (demands.length : ℚ)
  else 0

/-- `momentum` (lines 1157–1160): `(demands[-1] - demands[-2]) /
max(demands[-2], 1)` when at least two points exist, else 0. -/
def momentumOf (demands : List ℕ) : ℚ :=
  if h : 2 ≤ demands.length then
    ((demands.get ⟨demands.length - 1, by omega⟩ : ℚ) -
      (demands.get ⟨demands.length - 2, by omega⟩ : ℚ)) /
      max (demands.get ⟨demands.length - 2, by omega⟩ : ℚ) 1
  else 0

/-- One projected bucket (lines 1173–1174): the growth factor clamps the
momentum at 0 (`growth_factor = max(0.0, momentum) * offset`). -/
def forecastExpected (demands : List ℕ) (offset : ℕ) : ℤ :=
  max 1 (pyRound (avgDemand demands * (1 + max 0 (momentumOf demands) * (offset : ℚ))))

/-- The `expected_demand` values of the two forecast points (lines 1153–1175;
labels advance the last ISO week and carry no numeric content). -/
def forecastPoints (demands : List ℕ) : List ℤ :=
  if demands.length > 0 then [forecastExpected demands 1, forecastExpected demands 2] else []

/-- The projection as the claim words it: `expected = max(1, round(avg * (1 +
momentum*offset)))` for every momentum value, without the clamp. -/
def claimForecastExpected (demands : List ℕ) (offset : ℕ) : ℤ :=
  max 1 (pyRound (avgDemand demands * (1 + momentumOf demands * (offset : ℚ))))

/-! ## C2, C5, C10 theorems -/

/-- C2 (corrected): with timeline demands [4, 2] the momentum is −1/2, and
the code projects `max(1, round(avg))` = 3 for both offsets because it clamps
negative momentum to 0, while the claim's formula gives 2 for offset 1. -/
theorem cex_C2 :
    forecastPoints [4, 2] ≠
      [claimForecastExpected [4, 2] 1, claimForecastExpected [4, 2] 2] := by
  have hm : momentumOf [4, 2] = -1 / 2 := by
    rw [momentumOf, dif_pos (by decide)]
    norm_num
  have ha : avgDemand [4, 2] = 3 := by
    rw [avgDemand, if_pos (by decide)]
    norm_num
  rw [forecastPoints, if_pos (by decide)]
  unfold forecastExpected claimForecastExpected
  rw [hm, ha]
  intro hEq
  have h1 := List.head_eq_of_cons_eq hEq
  norm_num [pyRound] at h1

/-- C2 (amended): the momentum is `(last − previous)/max(previous, 1)` from
the last two timeline points (0 with fewer than two), and each projected
point is `expected = max(1, round(avg_of_all_points * (1 + max(0, momentum) *
offset)))` for offsets 1 and 2 — negative momentum is clamped to zero. -/
theorem thm_C2 (demands : List ℕ) (h : demands ≠ []) :
    forecastPoints demands =
      [max 1 (pyRound (avgDemand demands * (1 + max 0 (momentumOf demands) * 1))),
       max 1 (pyRound (avgDemand demands * (1 + max 0 (momentumOf demands) * 2)))] ∧
    (∀ h2 : 2 ≤ demands.length,
      momentumOf demands =
        ((demands.get ⟨demands.length - 1, by omega⟩ : ℚ) -
          (demands.get ⟨demands.length - 2, by omega⟩ : ℚ)) /
          max (demands.get ⟨demands.length - 2, by omega⟩ : ℚ) 1) ∧
    (demands.length < 2 → momentumOf demands = 0) := by
  refine ⟨?_, ?_, ?_⟩
  · rw [forecastPoints, if_pos (by simpa [List.length_pos] using h)]
    unfold forecastExpected
    norm_num
  · intro h2
    rw [momentumOf, dif_pos h2]
  · intro hlt
    rw [momentumOf, dif_neg (by omega)]

theorem thm_C2_witness :
    forecastPoints [4, 2] =
      [max 1 (pyRound (avgDemand [4, 2] * (1 + max 0 (momentumOf [4, 2]) * 1))),
       max 1 (pyRound (avgDemand [4, 2] * (1 + max 0 (momentumOf [4, 2]) * 2)))] :=
  (thm_C2 [4, 2] (by decide)).1

/-- C5: per seller, `total_visits = completed + pending` (cancelled excluded
from numerator and denominator), `compliance_percentage` is
`completed/(completed+pending)*100` rounded to 2 decimals (0 when the
denominator is 0), the global average runs only over sellers with
`completed + pending > 0`, and the 7/2/5 example yields 9 visits at 77.78%. -/
theorem thm_C5 (visits : List Visit) (sid : ℤ) (sellerIds : List ℤ) :
    ((complianceItemFor visits sid).total_visits =
      completedCount visits sid + pendingCount visits sid) ∧
    ((complianceItemFor visits sid).compliance_percentage =
      if 0 < completedCount visits sid + pendingCount visits sid
      then round2 (((completedCount visits sid : ℚ) /
        ((completedCount visits sid : ℚ) + (pendingCount visits sid : ℚ))) * 100)
      else 0) ∧
    (averageCompliance sellerIds visits =
      let ps := (sellerIds.filter fun s =>
          0 < completedCount visits s + pendingCount visits s).map fun s =>
          compliancePercentage (completedCount visits s) (pendingCount visits s)
      if ps.length > 0 then ps.sum / (ps.length : ℚ) else 0) ∧
    (complianceItemFor exampleVisits 1).total_visits = 9 ∧
    (complianceItemFor exampleVisits 1).compliance_percentage = 77.78 := by
  refine ⟨rfl, ?_, rfl, ?_, ?_⟩
  · show round2 (compliancePercentage _ _) = _
    unfold compliancePercentage
    split_ifs with hpos
    · rfl
    · simp [round2, pyRound]
  · show completedCount exampleVisits 1 + pendingCount exampleVisits 1 = 9
    decide
  · show round2 (compliancePercentage (completedCount exampleVisits 1)
      (pendingCount exampleVisits 1)) = 77.78
    have h1 : completedCount exampleVisits 1 = 7 := by decide
    have h2 : pendingCount exampleVisits 1 = 2 := by decide
    rw [h1, h2]
    norm_num [compliancePercentage, round2, pyRound]

/-- C10 (corrected): for an item with absent `max_stock`, `min_stock = -5`
and stock 0, the code defaults `max_stock` to `min_stock * 2 = -10` (Python
truthiness: any non-zero `min_stock`), giving `units_needed = 0`, while the
claim's `min_stock > 0` rule would default to `stock + 10` and give 10. -/
theorem cex_C10 :
    itemUnitsNeeded { stock := some (some 0), min_stock := some (-5) } = 0 ∧
    claimItemUnitsNeeded { stock := some (some 0), min_stock := some (-5) } = 10 := by
  constructor
  · norm_num [itemUnitsNeeded, itemMaxStock, itemMinStock, itemStock, safeFloat]
  · norm_num [claimItemUnitsNeeded, claimItemMaxStock, itemMinStock, itemStock, safeFloat]

/-- C10 (amended): when `max_stock` is absent or null, `units_needed` is
computed with `max_stock` defaulted to `min_stock*2` when `min_stock ≠ 0`
and to `stock + 10` when `min_stock = 0`; an item with neither `max_stock`
nor `min_stock` contributes exactly 10 `units_needed` regardless of stock. -/
theorem thm_C10 (it : InvItem) (h : it.max_stock = none) :
    itemUnitsNeeded it =
      max 0 ((if itemMinStock it ≠ 0 then itemMinStock it * 2 else itemStock it + 10) -
        itemStock it) ∧
    (it.min_stock = none → itemUnitsNeeded it = 10) := by
  constructor
  · unfold itemUnitsNeeded itemMaxStock
    rw [h]
    rfl
  · intro hm
    have h0 : itemMinStock it = 0 := by simp [itemMinStock, hm, safeFloat]
    unfold itemUnitsNeeded itemMaxStock
    rw [h, h0]
    simp only [safeFloat, Option.getD_none, ne_eq, not_true_eq_false, if_false,
      not_false_eq_true]
    rw [show itemStock it + 10 - itemStock it = (10 : ℚ) from by ring]
    norm_num

theorem thm_C10_witness :
    itemUnitsNeeded { stock := some (some 7) } =
      max 0 ((if itemMinStock { stock := some (some 7) } ≠ 0
        then itemMinStock { stock := some (some 7) } * 2
        else itemStock { stock := some (some 7) } + 10) -
          itemStock { stock := some (some 7) }) ∧
    ((none : Option ℚ) = none → itemUnitsNeeded { stock := some (some 7) } = 10) :=
  thm_C10 { stock := some (some 7) } rfl

/-! ### Synthetic sales generator (reports.py lines 54–101) -/

/-- An entry of the fixed `MOCK_PRODUCTS` catalog. -/
structure MockProduct where
  name : String
  category : String
  price : ℚ
  max_quantity : ℕ
deriving DecidableEq

/-- The 8-item mock product catalog (lines 54–63). -/
def MOCK_PRODUCTS : List MockProduct :=
  [⟨"Arroz Premium 1Kg", "Granos", 5800, 18⟩,
   ⟨"Aceite Vegetal 1L", "Aceites", 9200, 12⟩,
   ⟨"Bebida Energética 500ml", "Bebidas", 4500, 24⟩,
   ⟨"Galletas Integrales 12u", "Snacks", 7200, 15⟩,
   ⟨"Detergente Líquido 2L", "Aseo", 11800, 8⟩,
   ⟨"Papel Higiénico 12 rollos", "Aseo", 16300, 6⟩,
   ⟨"Café Molido 500g", "Bebidas", 9800, 10⟩,
   ⟨"Azúcar Refinada 1Kg", "Granos", 4600, 20⟩]

/-- `MOCK_STATUSES` (line 65). -/
def MOCK_STATUSES : List String := ["Completada", "Pagada", "Pendiente"]

/-- Deterministic model of Python's `random.Random(seed)` draw stream (an
LCG). The code relies only on the stream being a pure function of the seed
— `Random(shopkeeper_id)` at line 731/1466 — which any deterministic
generator models. -/
structure PRNG where
  state : ℕ
deriving DecidableEq

/-- `Random(seed)`. -/
def PRNG.ofSeed (seed : ℕ) : PRNG := ⟨seed % 2 ^ 64⟩

/-- Advance the stream and emit a raw draw. -/
def PRNG.next (g : PRNG) : ℕ × PRNG :=
  let s := (6364136223846793005 * g.state + 1442695040888963407) % 2 ^ 64
  (s / 2 ^ 16, ⟨s⟩)

/-- `rng.randint(a, b)`: a uniform draw from `[a, b]` (callers pass `a ≤ b`). -/
def PRNG.randint (g : PRNG) (a b : ℕ) : ℕ × PRNG :=
  (a + g.next.1 % (b + 1 - a), g.next.2)

/-- `rng.choice(MOCK_PRODUCTS)`: a uniform pick from the catalog. -/
def PRNG.choice (g : PRNG) (xs : List MockProduct) : MockProduct × PRNG :=
  (xs.getD (g.next.1 % xs.length) ⟨"", "", 0, 1⟩, g.next.2)

/-- `rng.choices(MOCK_STATUSES, weights=[0.7, 0.2, 0.1], k=1)[0]`: a weighted
draw with weights 7/10, 2/10, 1/10. -/
def PRNG.weightedStatus (g : PRNG) : String × PRNG :=
  (if g.next.1 % 10 < 7 then "Completada"
   else if g.next.1 % 10 < 9 then "Pagada" else "Pendiente", g.next.2)

/-- One generated sale (loop body, lines 74–98). `sold_at` is in UTC seconds
(`base − days·86400 − hours·3600`); the three `invoice_*` fields model the
data encoded in `INV-{id:03d}-{Y%m%d}-{seq:02d}` (the formatted date is
determined by the UTC day number `sold_at / 86400`). -/
structure SyntheticSale where
  sale_id : ℕ
  invoice_shopkeeper : ℕ
  invoice_day : ℤ
  invoice_seq : ℕ
  product_name : String
  category : String
  quantity : ℕ
  unit_price : ℚ
  total_amount : ℚ
  sold_at : ℤ
  status : String
deriving DecidableEq

/-- One iteration of the generation loop (lines 74–98): draw product,
quantity, age in days, hour offset, then the weighted status; `Pagada` is
normalized to `Completada` (line 96); `total_amount = round(q * price, 2)`. -/
def genSale (shopkeeper_id : ℕ) (base : ℤ) (index : ℕ) (g : PRNG) :
    SyntheticSale × PRNG :=
  let (product, g1) := g.choice MOCK_PRODUCTS
  let (quantity, g2) := g1.randint 1 product.max_quantity
  let (days_ago, g3) := g2.randint 0 60
  let (hours_offset, g4) := g3.randint 0 23
  let sold_at : ℤ := base - ((days_ago : ℤ) * 86400 + (hours_offset : ℤ) * 3600)
  let (st, g5) := g4.weightedStatus
  ({ sale_id := shopkeeper_id * 1000 + index + 1,
     invoice_shopkeeper := shopkeeper_id,
     invoice_day := sold_at.fdiv 86400,
     invoice_seq := index + 1,
     product_name := product.name,
     category := product.category,
     quantity := quantity,
     unit_price := product.price,
     total_amount := round2 ((quantity : ℚ) * product.price),
     sold_at := sold_at,
     status := if st = "Pagada" then "Completada" else st }, g5)

/-- The generation loop producing `n` records starting at `index`. -/
def genSalesAux (shopkeeper_id : ℕ) (base : ℤ) : ℕ → ℕ → PRNG → List SyntheticSale
  | 0, _, _ => []
  | n + 1, index, g =>
    (genSale shopkeeper_id base index g).1 ::
      genSalesAux shopkeeper_id base n (index + 1) (genSale shopkeeper_id base index g).2

/-- Descending `sold_at` order (`sales.sort(key=..., reverse=True)`, line 100). -/
def saleLater (a b : SyntheticSale) : Prop := b.sold_at ≤ a.sold_at

instance : DecidableRel saleLater := fun a b => Int.decLe b.sold_at a.sold_at

instance : IsTotal SyntheticSale saleLater := ⟨fun a b => le_total b.sold_at a.sold_at⟩

instance : IsTrans SyntheticSale saleLater := ⟨fun _ _ _ h1 h2 => le_trans h2 h1⟩

/-- `_generate_mock_sales(shopkeeper_id, rng)` with `rng = Random(shopkeeper_id)`
(lines 68–101 with the call sites at 731–732 and 1466–1467): draw
`num_records ∈ [6, 14]`, generate the records, sort descending by `sold_at`.
`base` models the `datetime.utcnow()` anchor in UTC seconds. -/
def generateMockSales (shopkeeper_id : ℕ) (base : ℤ) : List SyntheticSale :=
  let nr := (PRNG.ofSeed shopkeeper_id).randint 6 14
  List.insertionSort saleLater (genSalesAux shopkeeper_id base nr.1 0 nr.2)

theorem PRNG.randint_bounds (g : PRNG) {a b : ℕ} (h : a ≤ b) :
    a ≤ (g.randint a b).1 ∧ (g.randint a b).1 ≤ b := by
  have hpos : 0 < b + 1 - a := by omega
  have hlt := Nat.mod_lt g.next.1 hpos
  unfold PRNG.randint
  constructor
  · exact Nat.le_add_right a _
  · simp only
    omega

theorem genSalesAux_length (shopkeeper_id : ℕ) (base : ℤ) :
    ∀ n index g, (genSalesAux shopkeeper_id base n index g).length = n := by
  intro n
  induction n with
  | zero => intro _ _; rfl
  | succ k ih => intro index g; simp [genSalesAux, ih]

/-- C7: the synthetic sales generator is deterministic — seeded only with the
shopkeeper id and anchored at a fixed timestamp, two invocations produce
identical ordered lists, whose length lies in [6, 14] and which are sorted
descending by `sold_at`. -/
theorem thm_C7 (shopkeeper_id : ℕ) (base : ℤ) :
    generateMockSales shopkeeper_id base = generateMockSales shopkeeper_id base ∧
    6 ≤ (generateMockSales shopkeeper_id base).length ∧
    (generateMockSales shopkeeper_id base).length ≤ 14 ∧
    (generateMockSales shopkeeper_id base).Sorted saleLater := by
  have hlen : (generateMockSales shopkeeper_id base).length =
      ((PRNG.ofSeed shopkeeper_id).randint 6 14).1 := by
    unfold generateMockSales
    rw [(List.perm_insertionSort saleLater _).length_eq, genSalesAux_length]
  have hb := PRNG.randint_bounds (PRNG.ofSeed shopkeeper_id) (show 6 ≤ 14 by omega)
  refine ⟨rfl, ?_, ?_, ?_⟩
  · rw [hlen]; exact hb.1
  · rw [hlen]; exact hb.2
  · exact List.sorted_insertionSort saleLater _

/-! ### Missing-product analysis (get_market_opportunities, lines 900–1032) -/

/-- `product_catalog.get(product_id, {})` (line 940): catalog lookup result,
all fields absent for an unknown product. -/
structure CatalogEntry where
  name : Option String := none
  category : Option String := none
  price : Option ℚ := none

/-- A filtered shopkeeper. `id = 0` models a falsy/absent `"id"`; `zone_name`
is the `shop_zone_details` zone name resolved in lines 904–917 (always a
string, `"Sin zona"` when the seller has no resolvable zone); `inventory` is
the `get_inventory_by_shopkeeper` response (lines 919–925). -/
structure Shopkeeper where
  id : ℕ := 0
  zone_name : String := "Sin zona"
  inventory : List InvItem := []
deriving DecidableEq

/-- The `inventory_by_shop` dict (lines 919–925): keyed by truthy shop id,
later duplicates overwrite earlier ones, missing keys give `[]`. -/
def invByShop (shops : List Shopkeeper) : ℕ → List InvItem :=
  shops.foldl
    (fun m shop =>
      if shop.id = 0 then m else fun sid => if sid = shop.id then shop.inventory else m sid)
    fun _ => []

/-- The `shop_zone_details` dict (lines 904–917), reduced to the only field
the analysis reads back (`zone_name`, line 1011): keyed by `shop["id"]`,
later duplicates overwrite. -/
def shopZoneName (shops : List Shopkeeper) : ℕ → String :=
  shops.foldl
    (fun m shop sid => if sid = shop.id then shop.zone_name else m sid)
    fun _ => "Sin zona"

/-- Python truthiness filter on an optional integer (0 and absent are falsy). -/
def truthyNat : Option ℕ → Option ℕ
  | some n => if n = 0 then none else some n
  | none => none

/-- `product_id = item.get("product_id") or item.get("id")` followed by the
`if not product_id: continue` guard (lines 936–938): `none` iff skipped. -/
def itemPid (it : InvItem) : Option ℕ :=
  match truthyNat it.product_id with
  | some n => some n
  | none => truthyNat it.item_id

/-- Python `a or b` on optional strings (absent and `""` are falsy). -/
def pyOrStr : Option String → Option String → Option String
  | some s, b => if s = "" then b else some s
  | none, b => b

/-- `product_category = item.get("category") or item.get("product_category")
or catalog_entry.get("category")` (line 941). -/
def itemCategory (catalog : ℕ → CatalogEntry) (pid : ℕ) (it : InvItem) : Option String :=
  pyOrStr it.category (pyOrStr it.product_category (catalog pid).category)

/-- `product_name = item.get("product_name") or catalog_entry.get("name") or
f"Producto {product_id}"` (lines 947–951). -/
def itemProductName (catalog : ℕ → CatalogEntry) (pid : ℕ) (it : InvItem) : String :=
  match pyOrStr it.product_name (catalog pid).name with
  | some s => s
  | none => "Producto " ++ toString pid

/-- `unit_price = _safe_float(item.get("price")) or
_safe_float(item.get("unit_price")) or _safe_float(catalog_entry.get("price"))`
(lines 952–956): Python `or` takes the first non-zero coerced value. -/
def itemUnitPrice (catalog : ℕ → CatalogEntry) (pid : ℕ) (it : InvItem) : ℚ :=
  pyOr (safeFloat it.price 0) (pyOr (safeFloat it.unit_price 0) (safeFloat (catalog pid).price 0))

/-- One `product_stats` entry (lines 962–971). -/
structure ProdStats where
  product_name : String
  category : Option String
  shopkeepers_with : ℕ
  total_stock : ℚ
  total_units_needed : ℚ
  total_price : ℚ
  low_stock : ℕ
  shopkeeper_ids : List ℕ
deriving DecidableEq

/-- `product_stats.setdefault(pid, init)` followed by the in-place updates:
mutate the existing entry if present, otherwise append `f init` (dict
insertion order is preserved). -/
def statsInsert (pid : ℕ) (f : ProdStats → ProdStats) (init : ProdStats) :
    List (ℕ × ProdStats) → List (ℕ × ProdStats)
  | [] => [(pid, f init)]
  | (k, s) :: rest =>
    if k = pid then (k, f s) :: rest else (k, s) :: statsInsert pid f init rest

/-- One inventory item of one shop (lines 935–981). `catFilter` abstracts the
category request filter of lines 942–943 (`category.lower() not in
product_category.lower(): continue`, constantly true when the request has no
category): the analysis is verified for every such filter. -/
def processItem (catalog : ℕ → CatalogEntry) (catFilter : Option String → Bool) (shopId : ℕ)
    (acc : List (ℕ × ProdStats) × List ℕ) (it : InvItem) :
    List (ℕ × ProdStats) × List ℕ :=
  match itemPid it with
  | none => acc
  | some pid =>
    let cat := itemCategory catalog pid it
    if ¬ catFilter cat then acc
    else
      let name := itemProductName catalog pid it
      let price := itemUnitPrice catalog pid it
      let stock := itemStock it
      let minS := itemMinStock it
      let units := itemUnitsNeeded it
      let upd : ProdStats → ProdStats := fun s =>
        { product_name := name
          category := cat
          shopkeepers_with := s.shopkeepers_with + 1
          total_stock := s.total_stock + stock
          total_units_needed := s.total_units_needed + units
          total_price := s.total_price + (if price ≠ 0 then price else 0)
          low_stock := s.low_stock + (if minS ≠ 0 ∧ stock < minS then 1 else 0)
          shopkeeper_ids :=
            if shopId ∈ s.shopkeeper_ids then s.shopkeeper_ids else s.shopkeeper_ids ++ [shopId] }
      (statsInsert pid upd ⟨name, cat, 0, 0, 0, 0, 0, []⟩ acc.1,
        if pid ∈ acc.2 then acc.2 else acc.2 ++ [pid])

/-- One shop of the stats loop (lines 930–983): a falsy shop id reads `[]`
from `inventory_by_shop`; the computed `product_ids_for_shop` is stored in
`shop_products_map` under `shop.id` (duplicates overwrite). -/
def processShop (catalog : ℕ → CatalogEntry) (catFilter : Option String → Bool)
    (invMap : ℕ → List InvItem)
    (acc : List (ℕ × ProdStats) × (ℕ → List ℕ)) (shop : Shopkeeper) :
    List (ℕ × ProdStats) × (ℕ → List ℕ) :=
  let items := if shop.id = 0 then [] else invMap shop.id
  let r := items.foldl (processItem catalog catFilter shop.id) (acc.1, [])
  (r.1, fun sid => if sid = shop.id then r.2 else acc.2 sid)

/-- `product_stats` and `shop_products_map` after the whole loop
(lines 927–983). -/
def productStatsOf (catalog : ℕ → CatalogEntry) (catFilter : Option String → Bool)
    (shops : List Shopkeeper) : List (ℕ × ProdStats) × (ℕ → List ℕ) :=
  shops.foldl (processShop catalog catFilter (invByShop shops)) ([], fun _ => [])

/-- `impacted_zones` for one product (lines 1005–1011, sorted at line 1028):
the set of zone names of truthy-id shops that do not stock the product. -/
def impactedZones (shops : List Shopkeeper) (prodsOf : ℕ → List ℕ) (pid : ℕ) :
    List String :=
  List.insertionSort (fun a b : String => a ≤ b)
    ((shops.filterMap fun shop =>
      if shop.id ≠ 0 ∧ pid ∉ prodsOf shop.id then some (shopZoneName shops shop.id)
      else none).dedup)

/-- The `MissingPopularProductItem` record (lines 1022–1032). The missing
count is an `ℤ` because Python's subtraction at line 991 is over unbounded
ints. -/
structure MissingPopularProductItem where
  product_id : ℕ
  product_name : String
  category : Option String
  global_popularity : ℚ
  missing_shopkeepers : ℤ
  impacted_zones : List String
  potential_monthly_revenue : ℚ
  priority : String
  avg_unit_price : ℚ
deriving DecidableEq

/-- `popularity = stats["shopkeepers_with"] / total_shopkeepers if
total_shopkeepers else 0.0` (line 987). -/
def popularityOf (total withCount : ℕ) : ℚ :=
  if total ≠ 0 then (withCount : ℚ) / (total : ℚ) else 0

/-- The guarded mean used for `avg_price` and `avg_units_needed`
(lines 995–1002). -/
def avgOver (total : ℚ) (withCount : ℕ) : ℚ :=
  if withCount ≠ 0 then total / (withCount : ℚ) else 0

/-- One iteration of the emission loop (lines 986–1032): the popularity and
missing-count filters, the impacted-zones guard, and the record fields
(`potential_revenue = max(0.0, missing_count * max(avg_units_needed, 1.0) *
avg_price)`, line 1003). -/
def emitMissing (totalShopkeepers : ℕ) (threshold : ℚ) (effMinMissing : ℤ)
    (shops : List Shopkeeper) (prodsOf : ℕ → List ℕ) (entry : ℕ × ProdStats) :
    Option MissingPopularProductItem :=
  if popularityOf totalShopkeepers entry.2.shopkeepers_with < threshold then none
  else if ((totalShopkeepers : ℤ) - (entry.2.shopkeepers_with : ℤ)) < effMinMissing then none
  else if impactedZones shops prodsOf entry.1 = [] then none
  else some
    { product_id := entry.1
      product_name := entry.2.product_name
      category := entry.2.category
      global_popularity := round2 (popularityOf totalShopkeepers entry.2.shopkeepers_with)
      missing_shopkeepers := (totalShopkeepers : ℤ) - (entry.2.shopkeepers_with : ℤ)
      impacted_zones := impactedZones shops prodsOf entry.1
      potential_monthly_revenue := round2 (max 0
        (((totalShopkeepers : ℚ) - (entry.2.shopkeepers_with : ℚ)) *
          max (avgOver entry.2.total_units_needed entry.2.shopkeepers_with) 1 *
          avgOver entry.2.total_price entry.2.shopkeepers_with))
      priority := priorityOf (popularityOf totalShopkeepers entry.2.shopkeepers_with)
        ((totalShopkeepers : ℤ) - (entry.2.shopkeepers_with : ℤ)) effMinMissing
      avg_unit_price := round2 (avgOver entry.2.total_price entry.2.shopkeepers_with) }

/-- The `missing_products` list (lines 832–833, 985–1032) for a filtered
shopkeeper population, a raw popularity threshold and a raw
`min_missing_shopkeepers`: the endpoint clamps the threshold to [0, 1] and
the minimum to at least 1. The final sort at lines 1034–1041 only permutes
the list and is omitted. -/
def missingProducts (catalog : ℕ → CatalogEntry) (catFilter : Option String → Bool)
    (shops : List Shopkeeper) (threshold : ℚ) (minMissing : ℤ) :
    List MissingPopularProductItem :=
  let sp := productStatsOf catalog catFilter shops
  sp.1.filterMap
    (emitMissing shops.length (max 0 (min threshold 1)) (max 1 minMissing) shops sp.2)

/-- C3: every emitted missing-product item has a missing-shopkeepers count of
at least the (clamped) minimum, equal to `total − shopkeepers_with` for its
stats entry, a non-empty impacted-zones list, and an (unrounded) popularity
of at least the clamped threshold; a product stocked by every truthy-id
shopkeeper is never emitted. -/
theorem thm_C3 (catalog : ℕ → CatalogEntry) (catFilter : Option String → Bool)
    (shops : List Shopkeeper) (threshold : ℚ) (minMissing : ℤ)
    (item : MissingPopularProductItem)
    (hmem : item ∈ missingProducts catalog catFilter shops threshold minMissing) :
    item.missing_shopkeepers ≥ max 1 minMissing ∧
    item.impacted_zones ≠ [] ∧
    (∃ pid stats, (pid, stats) ∈ (productStatsOf catalog catFilter shops).1 ∧
      item.product_id = pid ∧
      item.missing_shopkeepers = (shops.length : ℤ) - (stats.shopkeepers_with : ℤ) ∧
      popularityOf shops.length stats.shopkeepers_with ≥ max 0 (min threshold 1)) ∧
    (∀ pid : ℕ,
      (∀ shop ∈ shops, shop.id ≠ 0 →
        pid ∈ (productStatsOf catalog catFilter shops).2 shop.id) →
      item.product_id ≠ pid) := by
  unfold missingProducts at hmem
  rw [List.mem_filterMap] at hmem
  obtain ⟨entry, hent, hemit⟩ := hmem
  unfold emitMissing at hemit
  split_ifs at hemit with h1 h2 h3
  rw [Option.some.injEq] at hemit
  subst hemit
  refine ⟨not_lt.mp h2, h3, ⟨entry.1, entry.2, hent, rfl, rfl, not_lt.mp h1⟩, ?_⟩
  intro pid hall heq
  simp only at heq
  rw [heq] at h3
  apply h3
  unfold impactedZones
  have hnil : (shops.filterMap fun shop =>
      if shop.id ≠ 0 ∧ pid ∉ (productStatsOf catalog catFilter shops).2 shop.id
      then some (shopZoneName shops shop.id) else none) = [] := by
    rw [List.filterMap_eq_nil_iff]
    intro shop hs
    rw [if_neg]
    intro hcond
    exact hcond.2 (hall shop hs hcond.1)
  rw [hnil]
  rfl

/-- Concrete population for the C3 witness: product 7 is stocked by
shopkeepers 1 and 2 but missing at shopkeeper 3. -/
def c3shops : List Shopkeeper :=
  [{ id := 1, zone_name := "Z1",
     inventory := [{ product_id := some 7, stock := some (some 5) }] },
   { id := 2, zone_name := "Z1",
     inventory := [{ product_id := some 7, stock := some (some 5) }] },
   { id := 3, zone_name := "Z1", inventory := [] }]

/-- The item emitted for the witness population. -/
def c3item : MissingPopularProductItem :=
  ⟨7, "Producto " ++ toString 7, none, 67 / 100, 1, ["Z1"], 0, "medium", 0⟩

theorem c3_concrete :
    missingProducts (fun _ => {}) (fun _ => true) c3shops (1 / 2) 1 = [c3item] := by
  unfold c3item missingProducts productStatsOf invByShop c3shops
  norm_num [processShop, processItem, itemPid, truthyNat, itemCategory, pyOrStr,
    itemProductName, itemUnitPrice, pyOr, safeFloat, itemStock, itemMinStock,
    itemMaxStock, itemUnitsNeeded, statsInsert, emitMissing, impactedZones,
    shopZoneName, priorityOf, popularityOf, avgOver, round2, pyRound, Int.fract,
    List.filterMap_cons, List.dedup_cons_of_mem, List.dedup_cons_of_not_mem,
    List.insertionSort, List.orderedInsert]

theorem thm_C3_witness :
    c3item.missing_shopkeepers ≥ max 1 1 ∧
    c3item.impacted_zones ≠ [] ∧
    (∃ pid stats,
      (pid, stats) ∈ (productStatsOf (fun _ => {}) (fun _ => true) c3shops).1 ∧
      c3item.product_id = pid ∧
      c3item.missing_shopkeepers = (c3shops.length : ℤ) - (stats.shopkeepers_with : ℤ) ∧
      popularityOf c3shops.length stats.shopkeepers_with ≥ max 0 (min (1 / 2) 1)) ∧
    (∀ pid : ℕ,
      (∀ shop ∈ c3shops, shop.id ≠ 0 →
        pid ∈ (productStatsOf (fun _ => {}) (fun _ => true) c3shops).2 shop.id) →
      c3item.product_id ≠ pid) := by
  apply thm_C3 (fun _ => {}) (fun _ => true) c3shops (1 / 2) 1 c3item
  rw [c3_concrete]
  exact List.mem_singleton_self _

/-! ### Demand timeline (get_market_opportunities, lines 1119–1151) -/

/-- ASCII digit character, as Python renders decimal digits. -/
def digitChar (d : ℕ) : Char := Char.ofNat (48 + d)

/-- Fuelled decimal rendering (most significant digit first). -/
def natCharsAux : ℕ → ℕ → List Char
  | 0, _ => []
  | fuel + 1, n =>
    if n < 10 then [digitChar n]
    else natCharsAux fuel (n / 10) ++ [digitChar (n % 10)]

/-- Decimal rendering of a natural number, as Python's `f"{n}"`. -/
def natChars (n : ℕ) : List Char := natCharsAux (n + 1) n

/-- Python's `f"{w:02d}"`: zero-pad the decimal rendering to at least two
digits. -/
def weekChars (w : ℕ) : List Char :=
  if w < 100 then [digitChar (w / 10), digitChar (w % 10)] else natChars w

/-- The timeline bucket label `f"{year}-W{week:02d}"` (line 1135). -/
def labelOf (y w : ℕ) : String :=
  (natChars y ++ '-' :: 'W' :: weekChars w).asString

theorem natCharsAux_congr (n : ℕ) :
    ∀ f1 f2, n < f1 → n < f2 → natCharsAux f1 n = natCharsAux f2 n := by
  induction n using Nat.strong_induction_on with
  | _ n ih =>
    intro f1 f2 h1 h2
    obtain ⟨g1, rfl⟩ : ∃ g, f1 = g + 1 := ⟨f1 - 1, by omega⟩
    obtain ⟨g2, rfl⟩ : ∃ g, f2 = g + 1 := ⟨f2 - 1, by omega⟩
    by_cases hn : n < 10
    · simp [natCharsAux, hn]
    · simp only [natCharsAux, if_neg hn]
      congr 1
      exact ih (n / 10) (by omega) g1 g2 (by omega) (by omega)

theorem natChars_def (n : ℕ) :
    natChars n =
      if n < 10 then [digitChar n] else natChars (n / 10) ++ [digitChar (n % 10)] := by
  unfold natChars
  by_cases hn : n < 10
  · simp [natCharsAux, hn]
  · simp only [natCharsAux, if_neg hn]
    congr 1
    exact natCharsAux_congr (n / 10) n (n / 10 + 1) (by omega) (by omega)

theorem natChars_two (n : ℕ) (h1 : 10 ≤ n) (h2 : n ≤ 99) :
    natChars n = [digitChar (n / 10), digitChar (n % 10)] := by
  rw [natChars_def, if_neg (by omega), natChars_def, if_pos (by omega)]
  rfl

theorem natChars_four (n : ℕ) (h1 : 1000 ≤ n) (h2 : n ≤ 9999) :
    natChars n = [digitChar (n / 1000), digitChar (n / 100 % 10),
      digitChar (n / 10 % 10), digitChar (n % 10)] := by
  rw [natChars_def, if_neg (by omega), natChars_def, if_neg (by omega),
    natChars_two (n / 10 / 10) (by omega) (by omega)]
  have e1 : n / 10 / 10 = n / 100 := by omega
  have e2 : n / 100 / 10 = n / 1000 := by omega
  rw [e1, e2]
  rfl

theorem digitChar_lt_aux :
    ∀ a, a < 10 → ∀ b, b < 10 → a < b → digitChar a < digitChar b := by decide

/-- Chronological strict order on (ISO year, ISO week) pairs. -/
def chronLt (p q : ℕ × ℕ) : Prop := p.1 < q.1 ∨ (p.1 = q.1 ∧ p.2 < q.2)

/-- Code-point lexicographic order on strings — how Python's `sorted`
compares the label keys (equivalent to Mathlib's `String.LT'` by
`String.lt_iff_toList_lt` and `List.lt_iff_lex_lt`). -/
def labelLt (s t : String) : Prop := List.Lex (· < ·) s.toList t.toList

instance : DecidableRel labelLt := fun s t => List.Lex.decidableRel _ s.toList t.toList

/-- `labelOf` is strictly monotone from chronological order to lexicographic
order as long as both ISO years have four digits (and the weeks at most
two). -/
theorem labelLt_labelOf_of_chronLt {y1 w1 y2 w2 : ℕ}
    (hy1 : 1000 ≤ y1) (hy1b : y1 ≤ 9999) (hw1b : w1 ≤ 53)
    (hy2 : 1000 ≤ y2) (hy2b : y2 ≤ 9999) (hw2b : w2 ≤ 53)
    (h : chronLt (y1, w1) (y2, w2)) :
    labelLt (labelOf y1 w1) (labelOf y2 w2) := by
  unfold labelLt labelOf
  simp only [List.toList_asString]
  rw [natChars_four y1 hy1 hy1b, natChars_four y2 hy2 hy2b]
  simp only [weekChars]
  rw [if_pos (show w1 < 100 by omega), if_pos (show w2 < 100 by omega)]
  simp only [List.cons_append, List.nil_append]
  dsimp only [chronLt] at h
  rcases h with hy | ⟨hy, hw⟩
  · rcases Nat.lt_trichotomy (y1 / 1000) (y2 / 1000) with h1 | h1 | h1
    · exact List.Lex.rel (digitChar_lt_aux _ (by omega) _ (by omega) h1)
    · rw [h1]
      apply List.Lex.cons
      rcases Nat.lt_trichotomy (y1 / 100 % 10) (y2 / 100 % 10) with h2 | h2 | h2
      · exact List.Lex.rel (digitChar_lt_aux _ (by omega) _ (by omega) h2)
      · rw [h2]
        apply List.Lex.cons
        rcases Nat.lt_trichotomy (y1 / 10 % 10) (y2 / 10 % 10) with h3 | h3 | h3
        · exact List.Lex.rel (digitChar_lt_aux _ (by omega) _ (by omega) h3)
        · rw [h3]
          apply List.Lex.cons
          exact List.Lex.rel (digitChar_lt_aux _ (by omega) _ (by omega) (by omega))
        · omega
      · omega
    · omega
  · subst hy
    apply List.Lex.cons
    apply List.Lex.cons
    apply List.Lex.cons
    apply List.Lex.cons
    apply List.Lex.cons
    apply List.Lex.cons
    rcases Nat.lt_trichotomy (w1 / 10) (w2 / 10) with h1 | h1 | h1
    · exact List.Lex.rel (digitChar_lt_aux _ (by omega) _ (by omega) h1)
    · rw [h1]
      apply List.Lex.cons
      exact List.Lex.rel (digitChar_lt_aux _ (by omega) _ (by omega) (by omega))
    · omega

/-- One visit as consumed by the timeline loop (lines 1131–1141): the ISO
calendar pair of its parsed `scheduled_date` (visits whose date fails to
parse are skipped before bucketing) and its raw `status`. -/
structure VisitRec where
  iso_year : ℕ
  iso_week : ℕ
  status : Option String
deriving DecidableEq

/-- One `demand_timeline[label]` counter dict. -/
structure TrendCounts where
  total : ℕ
  completed : ℕ
  pending : ℕ
deriving DecidableEq

/-- Python's `str.lower()` restricted to what the kernel can evaluate:
character-wise lowercasing (agrees with Python on ASCII statuses). -/
def toLowerStr (s : String) : String := (s.toList.map Char.toLower).asString

/-- The per-visit counter update (lines 1136–1141):
`status_visit = (visit.get("status") or "").lower()`, `total` always
incremented, `completed`/`pending` on the matching status. -/
def statusInc (st : Option String) (c : TrendCounts) : TrendCounts :=
  if toLowerStr (st.getD "") = "completed" then
    { c with total := c.total + 1, completed := c.completed + 1 }
  else if toLowerStr (st.getD "") = "pending" then
    { c with total := c.total + 1, pending := c.pending + 1 }
  else { c with total := c.total + 1 }

/-- One visit folded into the `defaultdict` (line 1119): update the existing
label entry in place, or append a fresh one (dict insertion order). -/
def bumpTimeline (label : String) (st : Option String) :
    List (String × TrendCounts) → List (String × TrendCounts)
  | [] => [(label, statusInc st ⟨0, 0, 0⟩)]
  | (l, c) :: rest =>
    if l = label then (l, statusInc st c) :: rest
    else (l, c) :: bumpTimeline label st rest

/-- The `demand_timeline` dict after all visits (lines 1119–1141). -/
def demandTimeline (visits : List VisitRec) : List (String × TrendCounts) :=
  visits.foldl (fun acc v => bumpTimeline (labelOf v.iso_year v.iso_week) v.status acc) []

/-- A `DemandTrendPoint` (lines 1143–1151). -/
structure DemandTrendPoint where
  label : String
  total_demand : ℕ
  completed : ℕ
  pending : ℕ
deriving DecidableEq

/-- The key order used by `sorted(demand_timeline.items())`: tuples compare
by their first component first, and the labels are distinct dict keys, so
the counter dicts are never compared. -/
def timelinePairLe (a b : String × TrendCounts) : Prop := labelLt a.1 b.1 ∨ a.1 = b.1

instance : DecidableRel timelinePairLe := fun a b =>
  inferInstanceAs (Decidable (labelLt a.1 b.1 ∨ a.1 = b.1))

instance : IsTrans (String × TrendCounts) timelinePairLe where
  trans a b c h1 h2 := by
    rcases h1 with h1 | h1 <;> rcases h2 with h2 | h2
    · have h1L : List.Lex (· < ·) a.1.toList b.1.toList := h1
      have h2L : List.Lex (· < ·) b.1.toList c.1.toList := h2
      have h3L : List.Lex (· < ·) a.1.toList c.1.toList := IsTrans.trans _ _ _ h1L h2L
      exact Or.inl h3L
    · exact Or.inl (h2 ▸ h1)
    · exact Or.inl (h1 ▸ h2)
    · exact Or.inr (h1.trans h2)

instance : IsTotal (String × TrendCounts) timelinePairLe where
  total a b := by
    have htri : List.Lex (· < ·) a.1.toList b.1.toList ∨ a.1.toList = b.1.toList ∨
        List.Lex (· < ·) b.1.toList a.1.toList :=
      trichotomous_of (List.Lex (· < ·)) a.1.toList b.1.toList
    rcases htri with h | h | h
    · exact Or.inl (Or.inl h)
    · exact Or.inl (Or.inr (String.toList_inj.mp h))
    · exact Or.inr (Or.inl h)

/-- `timeline_points` (lines 1143–1151): the dict items sorted by label,
mapped to trend points. -/
def demandTrendPoints (visits : List VisitRec) : List DemandTrendPoint :=
  (List.insertionSort timelinePairLe (demandTimeline visits)).map
    fun e => ⟨e.1, e.2.total, e.2.completed, e.2.pending⟩

theorem bumpTimeline_keys (label : String) (st : Option String) :
    ∀ acc : List (String × TrendCounts),
      (bumpTimeline label st acc).map Prod.fst =
        if label ∈ acc.map Prod.fst then acc.map Prod.fst
        else acc.map Prod.fst ++ [label] := by
  intro acc
  induction acc with
  | nil => simp [bumpTimeline]
  | cons hd tl ih =>
    obtain ⟨l, c⟩ := hd
    by_cases h : l = label
    · subst h
      simp [bumpTimeline]
    · have h2 : ¬ label = l := fun hh => h hh.symm
      simp only [bumpTimeline, if_neg h, List.map_cons, ih]
      by_cases hm : label ∈ tl.map Prod.fst
      · simp [hm, h2]
      · simp [hm, h2]

theorem bumpTimeline_nodup (label : String) (st : Option String)
    (acc : List (String × TrendCounts)) (h : (acc.map Prod.fst).Nodup) :
    ((bumpTimeline label st acc).map Prod.fst).Nodup := by
  rw [bumpTimeline_keys]
  split_ifs with hm
  · exact h
  · simp [List.nodup_append, h, hm]

theorem demandTimeline_nodup (visits : List VisitRec) :
    ((demandTimeline visits).map Prod.fst).Nodup := by
  unfold demandTimeline
  suffices hgen : ∀ acc : List (String × TrendCounts), (acc.map Prod.fst).Nodup →
      ((visits.foldl
        (fun a v => bumpTimeline (labelOf v.iso_year v.iso_week) v.status a) acc).map
          Prod.fst).Nodup by
    exact hgen [] (by simp)
  induction visits with
  | nil => intro acc h; simpa using h
  | cons v vs ih =>
    intro acc h
    exact ih _ (bumpTimeline_nodup _ _ _ h)

/-- The C8 claim's order property as stated: any ISO pairs rendering to two
consecutive emitted labels are chronologically increasing. -/
def chronProp (a b : DemandTrendPoint) : Prop :=
  ∀ y1 w1 y2 w2 : ℕ, labelOf y1 w1 = a.label → labelOf y2 w2 = b.label →
    chronLt (y1, w1) (y2, w2)

/-- The amended order property: chronological increase is guaranteed for ISO
pairs with four-digit years and weeks at most 53. -/
def chronPropB (a b : DemandTrendPoint) : Prop :=
  ∀ y1 w1 y2 w2 : ℕ,
    1000 ≤ y1 → y1 ≤ 9999 → 1 ≤ w1 → w1 ≤ 53 →
    1000 ≤ y2 → y2 ≤ 9999 → 1 ≤ w2 → w2 ≤ 53 →
    labelOf y1 w1 = a.label → labelOf y2 w2 = b.label →
    chronLt (y1, w1) (y2, w2)

/-- C8 (corrected): with visits in ISO weeks (999, 52) and (1000, 2) the
emitted labels are `["1000-W02", "999-W52"]` — string-sorted, hence NOT in
chronological (year, week) order, because a three-digit ISO year compares
lexicographically after a four-digit one. -/
theorem cex_C8 :
    ¬ (demandTrendPoints
        [⟨999, 52, some "completed"⟩, ⟨1000, 2, some "pending"⟩]).Pairwise chronProp := by
  intro h
  have hpts : demandTrendPoints
      [⟨999, 52, some "completed"⟩, ⟨1000, 2, some "pending"⟩] =
      [⟨"1000-W02", 1, 0, 1⟩, ⟨"999-W52", 1, 1, 0⟩] := by decide
  rw [hpts] at h
  have h12 := List.rel_of_pairwise_cons h (List.mem_singleton_self _)
  have hc := h12 1000 2 999 52 (by decide) (by decide)
  dsimp only [chronLt] at hc
  omega

/-- C8 (amended): for every input visit set the emitted timeline labels are
pairwise distinct and strictly increasing in code-point lexicographic order;
whenever the ISO pairs behind two consecutive labels have four-digit years
(1000–9999) and weeks in 1..53 — as all real `isocalendar()` output within
those years does — consecutive points are strictly increasing
chronologically. -/
theorem thm_C8 (visits : List VisitRec) :
    ((demandTrendPoints visits).map DemandTrendPoint.label).Nodup ∧
    (demandTrendPoints visits).Pairwise (fun a b => labelLt a.label b.label) ∧
    (demandTrendPoints visits).Pairwise chronPropB := by
  have hperm := List.perm_insertionSort timelinePairLe (demandTimeline visits)
  have hkeys : ((List.insertionSort timelinePairLe (demandTimeline visits)).map
      Prod.fst).Nodup :=
    (hperm.map Prod.fst).nodup_iff.mpr (demandTimeline_nodup visits)
  have hnodup : ((demandTrendPoints visits).map DemandTrendPoint.label).Nodup := by
    unfold demandTrendPoints
    rw [List.map_map]
    exact hkeys
  have hsorted : (List.insertionSort timelinePairLe (demandTimeline visits)).Pairwise
      timelinePairLe := List.sorted_insertionSort timelinePairLe (demandTimeline visits)
  have hne : (List.insertionSort timelinePairLe (demandTimeline visits)).Pairwise
      (fun a b => a.1 ≠ b.1) := List.pairwise_map.mp hkeys
  have hstrict : (demandTrendPoints visits).Pairwise
      (fun a b => labelLt a.label b.label) := by
    unfold demandTrendPoints
    rw [List.pairwise_map]
    exact (hsorted.and hne).imp fun hab => hab.1.resolve_right hab.2
  refine ⟨hnodup, hstrict, ?_⟩
  refine hstrict.imp ?_
  intro a b hlt
  intro y1 w1 y2 w2 hy1 hy1b _ hw1b hy2 hy2b _ hw2b heq1 heq2
  rw [← heq1, ← heq2] at hlt
  have htri : chronLt (y1, w1) (y2, w2) ∨ (y1 = y2 ∧ w1 = w2) ∨
      chronLt (y2, w2) (y1, w1) := by
    dsimp only [chronLt]
    omega
  rcases htri with hc | ⟨hye, hwe⟩ | hc
  · exact hc
  · subst hye; subst hwe
    exact absurd hlt (asymm_of (List.Lex (· < ·)) hlt)
  · have hlt2 := labelLt_labelOf_of_chronLt hy2 hy2b hw2b hy1 hy1b hw1b hc
    exact absurd hlt (asymm_of (List.Lex (· < ·)) hlt2)

end MSReport
